import Mathlib

/-!
Verification development for `src/logic/sender.py` of WindowGenerator/bot_women_day:
a per-tenant recurring-job scheduler (`SenderCongratulationsMessage`).

The Python source is shallowly embedded: each method becomes a Lean function on an
explicit state; effects (Telegram sends, log lines, sleeps, task spawns) are recorded
in an effect list; a Python exception escaping a method is an `Option PyErr` result,
with all mutations performed before the raise kept in the returned state, exactly as
Python dict mutation behaves.

External collaborators (`json.loads` from the stdlib, `pytimeparse.parse`, the
content provider `parse`, the Telegram `bot`) are parameters of an `Env` record:
the embedded code depends only on their input/output behaviour, which theorems
constrain by hypotheses and witnesses instantiate concretely.
-/

namespace Sender

/-- Tenant identifier (`ChatID` in the source). -/
abbrev ChatID := Nat

/-- `SenderJob` dataclass (sender.py lines 27-30): per-tenant mutable settings.
`repeat_delay` is `Option Int` because `_repeat_delay` stores the result of
`pytimeparse.parse`, which is an int or Python `None`. -/
structure SenderJob where
  repeat_delay : Option Int
  names : List String
deriving DecidableEq, Repr

/-- Result of `json.loads` as far as `_names` inspects it: `isinstance(x, list)`
or not.  Only list-of-string payloads reach the registry in the embedded claims,
so a Python list value is carried as its string elements and every non-list JSON
value is collapsed to `.nonList`. -/
inductive PyJson where
  | list (xs : List String)
  | nonList
deriving DecidableEq, Repr

/-- A Python exception escaping an embedded method.  `nameError` is raised by
`_start_task` (sender.py line 86), which reads the undefined global `repeat_delay`. -/
inductive PyErr where
  | nameError
deriving DecidableEq, Repr

/-- Observable side effects, in program order. -/
inductive Effect where
  | sendMessage (chat : ChatID) (text : String)
  | sendPhoto (chat : ChatID) (image : String)
  | logWarn
  | logErr (msg : String)
  | logDebug (msg : String)
  | logException
  | sleep (delay : Option Int)
  | spawnTask (chat : ChatID)
deriving DecidableEq, Repr

/-- State of one spawned `sender` coroutine.  `running i` carries the coroutine's
local `local_names_iter`: Python `None`, or a live list iterator holding the
elements not yet yielded. -/
inductive TaskState where
  | notSpawned
  | running (localNamesIter : Option (List String))
  | terminated
deriving DecidableEq, Repr

/-- The mutable state of a `SenderCongratulationsMessage` instance: the two
registry dicts (`chat_to_job` keys are tracked as presence of a handle, since the
handle itself is opaque) together with the state of each tenant's spawned task. -/
structure SenderState where
  chat_to_job : ChatID → Option Unit
  chat_to_setting : ChatID → Option SenderJob
  task : ChatID → TaskState

/-- Point update of a map `ChatID → Option α` (a Python dict entry write or `del`). -/
def setEntry {α : Type} (m : ChatID → Option α) (c : ChatID) (v : Option α) :
    ChatID → Option α :=
  fun x => if x = c then v else m x

/-- Point update of the task map. -/
def setTask (m : ChatID → TaskState) (c : ChatID) (v : TaskState) :
    ChatID → TaskState :=
  fun x => if x = c then v else m x

/-- External collaborators, injected as pure functions.
`json_loads` returns `none` on a `json.decoder.JSONDecodeError`;
`time_parse` is `pytimeparse.parse`, returning `none` when it cannot interpret
the string; `parse` is the content provider, producing `(image_bytes, text)`. -/
structure Env where
  json_loads : String → Option PyJson
  time_parse : String → Option Int
  parse : String → String × String

/-- Result of a state-mutating method: the state after it returns or raises, the
effects it emitted, and the exception that escaped it, if any. -/
structure OpResult where
  st : SenderState
  eff : List Effect
  err : Option PyErr

/-- `STANDARD_REPLAY_DELAY = "15m"` (sender.py line 33). -/
def STANDARD_REPLAY_DELAY : String := "15m"

/-- Python truthiness fallback `repeat_delay or STANDARD_REPLAY_DELAY`
(sender.py line 121): `None` and the empty string are falsy. -/
def pyOrDefault (raw : Option String) (dflt : String) : String :=
  match raw with
  | Option.none => dflt
  | some s => if s = "" then dflt else s

/-- The placeholder substitution at the top of `_send` (sender.py lines
191-192): `if name is None: name = "Безымянная"`.  Only Python `None` is
replaced; any actual string, the empty string included, is kept. -/
def pyNameDefault (name : Option String) : String :=
  match name with
  | Option.none => "Безымянная"
  | some n => n

/-- `_send` (sender.py lines 184-199): substitute the placeholder when `name is
None`, call the content provider, then send photo unless `send_only_text` and
message unless `send_only_picture`. -/
def send (env : Env) (chat : ChatID) (name : Option String)
    (send_only_picture : Bool := false) (send_only_text : Bool := false) :
    List Effect :=
  let r := env.parse (pyNameDefault name)
  (if send_only_text then [] else [Effect.sendPhoto chat r.1]) ++
  (if send_only_picture then [] else [Effect.sendMessage chat r.2])

/-- `_start_task` (sender.py lines 78-86).  If the chat is in either dict the
method returns.  Otherwise it spawns the `sender` coroutine, stores the handle
in `chat_to_job`, and then evaluates
`SenderJob(repeat_delay=repeat_delay, names=[])`: the name `repeat_delay` is
bound nowhere in the module, so the constructor argument raises `NameError`
before `chat_to_setting` is assigned; the earlier `chat_to_job` insertion and
the spawned task persist.  The spawn itself is modelled from the spec:
`run_background_task` lives in `src/tasks`, outside `src/`, and per the spec it
schedules the coroutine as a cancellable background task. -/
def startTask (st : SenderState) (chat : ChatID) : OpResult :=
  if st.chat_to_job chat ≠ Option.none ∨ st.chat_to_setting chat ≠ Option.none then
    { st := st, eff := [], err := Option.none }
  else
    { st := { st with
                chat_to_job := setEntry st.chat_to_job chat (some ()),
                task := setTask st.task chat (TaskState.running Option.none) },
      eff := [Effect.spawnTask chat],
      err := some PyErr.nameError }

/-- `_stop_task` (sender.py lines 88-96).  No-op unless the chat is in both
dicts; otherwise delete both entries, then `cancel_and_stop_task(task)`.
The cancel is modelled from the spec: `cancel_and_stop_task` lives in
`src/tasks`, outside `src/`, and per the spec it cancels the task and awaits
its termination before returning. -/
def stopTask (st : SenderState) (chat : ChatID) : OpResult :=
  if st.chat_to_job chat = Option.none ∨ st.chat_to_setting chat = Option.none then
    { st := st, eff := [], err := Option.none }
  else
    { st := { st with
                chat_to_job := setEntry st.chat_to_job chat Option.none,
                chat_to_setting := setEntry st.chat_to_setting chat Option.none,
                task := setTask st.task chat TaskState.terminated },
      eff := [],
      err := Option.none }

/-- `_names` (sender.py lines 98-115).  Parse the raw payload with `json.loads`;
on a decode error or a non-list value, message the tenant and log a warning,
leaving the state untouched; otherwise, if the chat is in both dicts, replace
the stored `names`. -/
def namesOp (env : Env) (st : SenderState) (chat : ChatID) (raw : String) :
    OpResult :=
  match env.json_loads raw with
  | Option.none =>
      { st := st,
        eff := [Effect.sendMessage chat "При пасинге имен произолша ошибка",
                Effect.logWarn],
        err := Option.none }
  | some PyJson.nonList =>
      { st := st,
        eff := [Effect.sendMessage chat "При пасинге имен произолша ошибка",
                Effect.logWarn],
        err := Option.none }
  | some (PyJson.list xs) =>
      if st.chat_to_job chat = Option.none ∨ st.chat_to_setting chat = Option.none then
        { st := st, eff := [], err := Option.none }
      else
        match st.chat_to_setting chat with
        | Option.none => { st := st, eff := [], err := Option.none }
        | some j =>
            { st := { st with
                        chat_to_setting :=
                          setEntry st.chat_to_setting chat
                            (some { j with names := xs }) },
              eff := [],
              err := Option.none }

/-- `_repeat_delay` (sender.py lines 117-124).  No-op unless the chat is in both
dicts; otherwise fall back to `STANDARD_REPLAY_DELAY` on a falsy raw value,
parse with `pytimeparse.parse`, and store the result — `None` included —
with no validation, notification or logging. -/
def repeatDelayOp (env : Env) (st : SenderState) (chat : ChatID)
    (raw : Option String) : OpResult :=
  if st.chat_to_job chat = Option.none ∨ st.chat_to_setting chat = Option.none then
    { st := st, eff := [], err := Option.none }
  else
    match st.chat_to_setting chat with
    | Option.none => { st := st, eff := [], err := Option.none }
    | some j =>
        let d := env.time_parse (pyOrDefault raw STANDARD_REPLAY_DELAY)
        { st := { st with
                    chat_to_setting :=
                      setEntry st.chat_to_setting chat
                        (some { j with repeat_delay := d }) },
          eff := [],
          err := Option.none }

/-- One step of the iterator logic in the `sender` loop body (sender.py lines
162-168 and 174-175): if `local_names_iter` is Python `None`, rebuild it from
the current names and yield nothing (the priming tick); otherwise call
`__next__`: on `StopIteration` reset the iterator to `None` and yield nothing,
otherwise yield the next name.  Returns the new iterator and the yielded name. -/
def iterAdvance (names : List String) :
    Option (List String) → Option (List String) × Option String
  | Option.none => (some names, Option.none)
  | some [] => (Option.none, Option.none)
  | some (n :: rest) => (some rest, some n)

/-- One wake of the `sender` coroutine for `chat` (sender.py lines 149-182): one
iteration of the `while True` body.  A wake of a task that is not running does
nothing.  Otherwise: `replay_delay = 5`; if the chat has no settings entry, the
body raises `asyncio.CancelledError`, which the dedicated handler logs and
re-raises, so after the `finally` sleep the coroutine terminates.  Otherwise
re-read `repeat_delay` and `names`, advance the iterator (dispatching
`logger.error(name)` and `_send(chat_id, name)` when a name is yielded), and
sleep for the freshly read delay in the `finally` block. -/
def senderWake (env : Env) (st : SenderState) (chat : ChatID) :
    SenderState × List Effect :=
  match st.task chat with
  | TaskState.notSpawned => (st, [])
  | TaskState.terminated => (st, [])
  | TaskState.running i =>
      match st.chat_to_setting chat with
      | Option.none =>
          ({ st with task := setTask st.task chat TaskState.terminated },
           [Effect.logDebug "Бесконечная задача отменена",
            Effect.sleep (some 5)])
      | some j =>
          let a := iterAdvance j.names i
          let disp := match a.2 with
            | Option.none => []
            | some n => Effect.logErr n :: send env chat (some n)
          ({ st with task := setTask st.task chat (TaskState.running a.1) },
           disp ++ [Effect.sleep j.repeat_delay])

/-- `CommandsForPolling` (from `src/models`, referenced at sender.py lines
68-72): modelled from the spec, which lists Start, Stop and Configure
(`SETTINGS`) polling commands. -/
inductive CommandsForPolling where
  | START
  | STOP
  | SETTINGS
deriving DecidableEq, Repr

/-- `PollingInfo` (from `src/models`): modelled from the spec — a polling
command carries the tenant, the command tag, and for Configure the raw names
payload and raw delay string. -/
structure PollingInfo where
  chat_id : ChatID
  command : CommandsForPolling
  names : String
  delay : Option String
deriving DecidableEq, Repr

/-- `CommandsForGenerate` (from `src/models`, referenced at sender.py lines
137-139): modelled from the spec — Picture, Text and Both generation kinds,
Both being the default arm in `_generate`. -/
inductive CommandsForGenerate where
  | PICTURE
  | TEXT
  | BOTH
deriving DecidableEq, Repr

/-- `GenerateInfo` (from `src/models`): modelled from the spec — a generation
command carries the tenant, the kind, and an optional first name. -/
structure GenerateInfo where
  chat_id : ChatID
  command : CommandsForGenerate
  first_name : Option String
deriving DecidableEq, Repr

/-- `_generate` without its queue handling (sender.py lines 132-147): map the
command kind to the `send_only_picture` / `send_only_text` flags (both false
for any kind other than `PICTURE` and `TEXT`) and call `_send` with the
command's `first_name`. -/
def generateDispatch (env : Env) (info : GenerateInfo) : List Effect :=
  let send_only_picture := info.command = CommandsForGenerate.PICTURE
  let send_only_text := info.command = CommandsForGenerate.TEXT
  send env info.chat_id info.first_name send_only_picture send_only_text

/-- `_generate` (sender.py lines 126-147): if the generation queue is nonempty,
take exactly one item and dispatch it.  Returns the remaining queue and the
effects. -/
def generateOp (env : Env) (gq : List GenerateInfo) :
    List GenerateInfo × List Effect :=
  match gq with
  | [] => (gq, [])
  | info :: rest => (rest, generateDispatch env info)

/-- Result of `_polling` / of one `callback_checker` body: state, the two
queues, effects, escaping exception. -/
structure CycleResult where
  st : SenderState
  pq : List PollingInfo
  gq : List GenerateInfo
  eff : List Effect
  err : Option PyErr

/-- `_polling` (sender.py lines 61-76): if the polling queue is nonempty, take
exactly one item and apply it — START via `_start_task`, STOP via `_stop_task`,
SETTINGS via `_names` then `_repeat_delay`.  An exception raised by the applied
method (the `NameError` in `_start_task`) escapes `_polling`. -/
def pollingOp (env : Env) (st : SenderState) (pq : List PollingInfo) :
    SenderState × List PollingInfo × List Effect × Option PyErr :=
  match pq with
  | [] => (st, pq, [], Option.none)
  | info :: rest =>
      match info.command with
      | CommandsForPolling.START =>
          let r := startTask st info.chat_id
          (r.st, rest, r.eff, r.err)
      | CommandsForPolling.STOP =>
          let r := stopTask st info.chat_id
          (r.st, rest, r.eff, r.err)
      | CommandsForPolling.SETTINGS =>
          let r1 := namesOp env st info.chat_id info.names
          let r2 := repeatDelayOp env r1.st info.chat_id info.delay
          (r2.st, rest, r1.eff ++ r2.eff, Option.none)

/-- The body of one `callback_checker` cycle (sender.py lines 56-59):
`await self._polling()` then `await self._generate()`.  If `_polling` raises,
the exception propagates out of the body at once — `_generate` does not run
that cycle (the `run_forever` wrapper around the whole body catches and logs
it, then the next cycle starts). -/
def callbackBody (env : Env) (st : SenderState) (pq : List PollingInfo)
    (gq : List GenerateInfo) : CycleResult :=
  let p := pollingOp env st pq
  match p.2.2.2 with
  | some e => { st := p.1, pq := p.2.1, gq := gq, eff := p.2.2.1, err := some e }
  | Option.none =>
      let g := generateOp env gq
      { st := p.1, pq := p.2.1, gq := g.1, eff := p.2.2.1 ++ g.2,
        err := Option.none }

/-- The `local_names_iter` of a runner over a fixed names list after `k` wakes
(starting from Python `None`, sender.py line 152). -/
def runnerIterAt (names : List String) : Nat → Option (List String)
  | 0 => Option.none
  | k + 1 => (iterAdvance names (runnerIterAt names k)).1

/-- The name dispatched on the runner's wake number `k` (0-based) over a fixed
names list, `none` when that wake dispatches nothing. -/
def dispatchAt (names : List String) (k : Nat) : Option String :=
  (iterAdvance names (runnerIterAt names k)).2

/-- The state after `k` successive wakes of the `sender` coroutine for `chat`. -/
def wakeStateAt (env : Env) (st : SenderState) (chat : ChatID) : Nat → SenderState
  | 0 => st
  | k + 1 => (senderWake env (wakeStateAt env st chat k) chat).1

/-- The effects emitted by wake number `k` (0-based) of the `sender` coroutine. -/
def wakeEffectsAt (env : Env) (st : SenderState) (chat : ChatID) (k : Nat) :
    List Effect :=
  (senderWake env (wakeStateAt env st chat k) chat).2

/-- The dispatch sequence the spec claims for names `["A","B"]`: a priming
no-dispatch tick, then A, B, one no-dispatch wrap tick, A, B, ... — a single
no-dispatch tick per full pass. -/
def claimedDispatchAt : Nat → Option String
  | 0 => Option.none
  | k + 1 => [some "A", some "B", Option.none].getD (k % 3) Option.none

/-- The dispatch sequence the code actually produces for names `["A","B"]`:
a priming no-dispatch tick, then A, B, and TWO no-dispatch ticks per wrap
(one for the `StopIteration` reset, one for re-priming), then A, B, ... -/
def amendedDispatchAt : Nat → Option String
  | 0 => Option.none
  | k + 1 =>
      [some "A", some "B", Option.none, Option.none].getD (k % 4) Option.none

theorem runnerIterAt_AB_periodic (k : Nat) :
    runnerIterAt ["A", "B"] (k + 4) = runnerIterAt ["A", "B"] k := by
  induction k with
  | zero => rfl
  | succ n ih =>
      show (iterAdvance ["A", "B"] (runnerIterAt ["A", "B"] (n + 4))).1 =
        runnerIterAt ["A", "B"] (n + 1)
      rw [ih]
      rfl

theorem dispatchAt_AB_periodic (k : Nat) :
    dispatchAt ["A", "B"] (k + 4) = dispatchAt ["A", "B"] k := by
  unfold dispatchAt
  rw [runnerIterAt_AB_periodic]

theorem amendedDispatchAt_periodic (k : Nat) :
    amendedDispatchAt (k + 4) = amendedDispatchAt k := by
  match k with
  | 0 => rfl
  | n + 1 =>
      show [some "A", some "B", Option.none, Option.none].getD ((n + 4) % 4)
          Option.none =
        [some "A", some "B", Option.none, Option.none].getD (n % 4) Option.none
      rw [Nat.add_mod_right]

theorem dispatchAt_eq_amended (k : Nat) :
    dispatchAt ["A", "B"] k = amendedDispatchAt k := by
  induction k using Nat.strong_induction_on with
  | _ k ih =>
    match k, ih with
    | 0, _ => rfl
    | 1, _ => rfl
    | 2, _ => rfl
    | 3, _ => rfl
    | 4, _ => rfl
    | n + 5, ih =>
        have h : n + 5 = (n + 1) + 4 := by omega
        rw [h, dispatchAt_AB_periodic, amendedDispatchAt_periodic]
        exact ih (n + 1) (by omega)

theorem setTask_same (m : ChatID → TaskState) (c : ChatID) (v : TaskState) :
    setTask m c v c = v := by
  simp [setTask]

/-- Over wakes of an active runner for `c` with names `["A","B"]`, the task-local
iterator follows `runnerIterAt` and the settings entry is never modified. -/
theorem wakeStateAt_invariant (env : Env) (st : SenderState) (c : ChatID)
    (d : Option Int)
    (h1 : st.task c = TaskState.running Option.none)
    (h2 : st.chat_to_setting c = some { repeat_delay := d, names := ["A", "B"] }) :
    ∀ k : Nat,
      (wakeStateAt env st c k).task c =
          TaskState.running (runnerIterAt ["A", "B"] k) ∧
      (wakeStateAt env st c k).chat_to_setting c =
          some { repeat_delay := d, names := ["A", "B"] } := by
  intro k
  induction k with
  | zero => exact ⟨h1, h2⟩
  | succ n ih =>
      obtain ⟨ht, hs⟩ := ih
      show (senderWake env (wakeStateAt env st c n) c).1.task c = _ ∧
        (senderWake env (wakeStateAt env st c n) c).1.chat_to_setting c = _
      rw [senderWake, ht, hs]
      exact ⟨setTask_same _ _ _, hs⟩

/-- Claim C1 as stated is false: on the wake after B is dispatched the iterator
only resets (`StopIteration`), and the wake after that only re-primes, so wake 4
dispatches nothing where the claimed cyclic sequence dispatches A. -/
theorem c1_counterexample :
    dispatchAt ["A", "B"] 4 = Option.none ∧ claimedDispatchAt 4 = some "A" :=
  ⟨rfl, rfl⟩

/-- Claim C1, amended: for an active job whose settings hold names `["A","B"]`,
successive wakes of the `sender` coroutine dispatch cyclically with TWO
no-dispatch ticks per full pass — nothing on the priming tick, then A, then B,
then a no-dispatch `StopIteration` tick, then a no-dispatch re-priming tick,
then A, B, and so on; each wake sleeps for the stored delay. -/
theorem c1_amended_dispatch_cycle (env : Env) (st : SenderState) (c : ChatID)
    (d : Option Int)
    (h1 : st.task c = TaskState.running Option.none)
    (h2 : st.chat_to_setting c = some { repeat_delay := d, names := ["A", "B"] })
    (k : Nat) :
    wakeEffectsAt env st c k =
      (match amendedDispatchAt k with
       | some n => Effect.logErr n :: send env c (some n)
       | Option.none => []) ++ [Effect.sleep d] := by
  obtain ⟨ht, hs⟩ := wakeStateAt_invariant env st c d h1 h2 k
  show (senderWake env (wakeStateAt env st c k) c).2 = _
  rw [← dispatchAt_eq_amended]
  unfold senderWake dispatchAt
  rw [ht, hs]
  cases hr : runnerIterAt ["A", "B"] k with
  | none => rfl
  | some l =>
      cases l with
      | nil => rfl
      | cons a rest => rfl

/-- Concrete environment used by witnesses. -/
def envW : Env :=
  { json_loads := fun _ => Option.none,
    time_parse := fun _ => Option.none,
    parse := fun n => ("img:" ++ n, "txt:" ++ n) }

/-- Concrete settings entry used by witnesses: delay 60, names `["A","B"]`. -/
def jW : SenderJob := { repeat_delay := some 60, names := ["A", "B"] }

/-- Concrete state used by witnesses: every tenant active with settings `jW`,
every task running with a fresh iterator. -/
def stW1 : SenderState :=
  { chat_to_job := fun _ => some (),
    chat_to_setting := fun _ => some jW,
    task := fun _ => TaskState.running Option.none }

/-- Witness for C1's amended theorem at wake 1: the first wake after priming
dispatches A. -/
theorem c1_amended_witness :
    wakeEffectsAt envW stW1 0 1 =
      [Effect.logErr "A", Effect.sendPhoto 0 "img:A",
       Effect.sendMessage 0 "txt:A", Effect.sleep (some 60)] :=
  c1_amended_dispatch_cycle envW stW1 0 (some 60) rfl rfl 1

/-- The empty registry: no jobs, no settings, no spawned tasks. -/
def emptyState : SenderState :=
  { chat_to_job := fun _ => Option.none,
    chat_to_setting := fun _ => Option.none,
    task := fun _ => TaskState.notSpawned }

theorem setEntry_same {α : Type} (m : ChatID → Option α) (c : ChatID)
    (v : Option α) : setEntry m c v c = v := by
  simp [setEntry]

/-- Claim C2 is right about the intent but the code is wrong: on a fresh tenant,
`_start_task` stores the task handle in `chat_to_job` and then raises
`NameError` (the constructor argument `repeat_delay` at sender.py line 86 is an
undefined name), so the default settings entry is never created. -/
theorem c2_start_task_name_error :
    (startTask emptyState 0).st.chat_to_job 0 = some () ∧
    (startTask emptyState 0).st.chat_to_setting 0 = Option.none ∧
    (startTask emptyState 0).err = some PyErr.nameError :=
  ⟨rfl, rfl, rfl⟩

/-- Claim C3 is right about the intent but the code is wrong: after `_start_task`
on a fresh tenant, the tenant is in `chat_to_job` but not in `chat_to_setting`
(the `NameError` at sender.py line 86 strikes between the two insertions), so
the two maps do not agree and the pair is not added atomically. -/
theorem c3_registry_invariant_broken :
    ¬((startTask emptyState 1).st.chat_to_job 1 = Option.none ↔
      (startTask emptyState 1).st.chat_to_setting 1 = Option.none) := by
  decide

/-- A wake of a terminated task does nothing. -/
theorem senderWake_terminated (env : Env) (st : SenderState) (c : ChatID)
    (h : st.task c = TaskState.terminated) : senderWake env st c = (st, []) := by
  unfold senderWake
  rw [h]

/-- A terminated task stays terminated and leaves the state alone over any
number of wakes. -/
theorem wakeStateAt_terminated (env : Env) (st : SenderState) (c : ChatID)
    (h : st.task c = TaskState.terminated) :
    ∀ k : Nat, wakeStateAt env st c k = st := by
  intro k
  induction k with
  | zero => rfl
  | succ n ih =>
      show (senderWake env (wakeStateAt env st c n) c).1 = st
      rw [ih, senderWake_terminated env st c h]

/-- Claim C4: `_stop_task` on a tenant in neither registry map is a no-op; on an
active tenant it deletes both entries and cancels-and-awaits the task, which is
terminated by the time `_stop_task` returns, so every later wake of that
tenant's runner does nothing and in particular dispatches nothing. -/
theorem c4_stop_task (st : SenderState) (c : ChatID) :
    (st.chat_to_job c = Option.none ∧ st.chat_to_setting c = Option.none →
      stopTask st c = { st := st, eff := [], err := Option.none }) ∧
    (st.chat_to_job c ≠ Option.none → st.chat_to_setting c ≠ Option.none →
      (stopTask st c).st.chat_to_job c = Option.none ∧
      (stopTask st c).st.chat_to_setting c = Option.none ∧
      (stopTask st c).st.task c = TaskState.terminated ∧
      ∀ (env : Env) (k : Nat), wakeEffectsAt env (stopTask st c).st c k = []) := by
  constructor
  · intro h
    unfold stopTask
    rw [if_pos (Or.inl h.1)]
  · intro hj hs
    have hcond : ¬(st.chat_to_job c = Option.none ∨
        st.chat_to_setting c = Option.none) := by
      rintro (h | h)
      · exact hj h
      · exact hs h
    have hstop : stopTask st c =
        { st := { st with
                    chat_to_job := setEntry st.chat_to_job c Option.none,
                    chat_to_setting := setEntry st.chat_to_setting c Option.none,
                    task := setTask st.task c TaskState.terminated },
          eff := [], err := Option.none } := by
      unfold stopTask
      rw [if_neg hcond]
    rw [hstop]
    have hterm : ({ st with
        chat_to_job := setEntry st.chat_to_job c Option.none,
        chat_to_setting := setEntry st.chat_to_setting c Option.none,
        task := setTask st.task c TaskState.terminated } : SenderState).task c =
        TaskState.terminated := setTask_same _ _ _
    refine ⟨setEntry_same _ _ _, setEntry_same _ _ _, hterm, ?_⟩
    intro env k
    unfold wakeEffectsAt
    rw [wakeStateAt_terminated env _ c hterm k,
        senderWake_terminated env _ c hterm]

/-- Witness for C4: stopping active tenant 0 of a concrete one-tenant registry
empties both maps, terminates the task, and wake 3 after the stop emits no
effects; stopping tenant 0 of the empty registry is a no-op. -/
theorem c4_stop_task_witness :
    stopTask emptyState 0 = { st := emptyState, eff := [], err := Option.none } ∧
    (stopTask stW1 0).st.chat_to_job 0 = Option.none ∧
    (stopTask stW1 0).st.chat_to_setting 0 = Option.none ∧
    (stopTask stW1 0).st.task 0 = TaskState.terminated ∧
    wakeEffectsAt envW (stopTask stW1 0).st 0 3 = [] := by
  have h1 := (c4_stop_task emptyState 0).1 ⟨rfl, rfl⟩
  have h2 := (c4_stop_task stW1 0).2 (by decide) (fun h => Option.noConfusion h)
  exact ⟨h1, h2.1, h2.2.1, h2.2.2.1, h2.2.2.2 envW 3⟩

/-- Concrete environment whose JSON loader accepts exactly the payload
`["X"]`. -/
def envW5 : Env :=
  { json_loads := fun s =>
      if s = "[\"X\"]" then some (PyJson.list ["X"]) else Option.none,
    time_parse := fun _ => Option.none,
    parse := fun n => ("img:" ++ n, "txt:" ++ n) }

/-- Claim C5: `_names` with a payload that does not parse as JSON, or parses to
a non-list value, messages the tenant, logs a warning and leaves the state
untouched; with a list payload and a tenant present in both maps, it replaces
the stored names. -/
theorem c5_names (env : Env) (st : SenderState) (c : ChatID) (raw : String)
    (xs : List String) (j : SenderJob) :
    (env.json_loads raw = Option.none ∨
        env.json_loads raw = some PyJson.nonList →
      namesOp env st c raw =
        { st := st,
          eff := [Effect.sendMessage c "При пасинге имен произолша ошибка",
                  Effect.logWarn],
          err := Option.none }) ∧
    (env.json_loads raw = some (PyJson.list xs) →
      st.chat_to_job c ≠ Option.none →
      st.chat_to_setting c = some j →
      namesOp env st c raw =
        { st := { st with
                    chat_to_setting :=
                      setEntry st.chat_to_setting c
                        (some { j with names := xs }) },
          eff := [], err := Option.none }) := by
  constructor
  · rintro (h | h) <;> · unfold namesOp; rw [h]
  · intro h hj hs
    have hcond : ¬(st.chat_to_job c = Option.none ∨
        st.chat_to_setting c = Option.none) := by
      rintro (h' | h')
      · exact hj h'
      · rw [hs] at h'
        exact Option.noConfusion h'
    simp only [namesOp, h]
    rw [if_neg hcond, hs]

/-- Witness for C5: on the concrete one-tenant registry, a failing parse leaves
the state alone and messages tenant 0, and a successful parse of `["X"]`
replaces tenant 0's names. -/
theorem c5_names_witness :
    namesOp envW stW1 0 "not-json" =
      { st := stW1,
        eff := [Effect.sendMessage 0 "При пасинге имен произолша ошибка",
                Effect.logWarn],
        err := Option.none } ∧
    namesOp envW5 stW1 0 "[\"X\"]" =
      { st := { stW1 with
                  chat_to_setting :=
                    setEntry stW1.chat_to_setting 0
                      (some { repeat_delay := some 60, names := ["X"] }) },
        eff := [], err := Option.none } :=
  ⟨(c5_names envW stW1 0 "not-json" [] jW).1 (Or.inl rfl),
   (c5_names envW5 stW1 0 "[\"X\"]" ["X"] jW).2 rfl
     (fun h => Option.noConfusion h) rfl⟩

/-- The delay value `_repeat_delay` stores: the `pytimeparse` parse of the raw
string, after falling back to `STANDARD_REPLAY_DELAY` on a falsy raw value. -/
def parsedDelay (env : Env) (raw : Option String) : Option Int :=
  env.time_parse (pyOrDefault raw STANDARD_REPLAY_DELAY)

/-- `_repeat_delay` on a tenant present in both maps replaces the stored
`repeat_delay` with the parse of the (defaulted) raw value, leaving everything
else alone and emitting nothing. -/
theorem repeatDelayOp_active (env : Env) (st : SenderState) (c : ChatID)
    (j : SenderJob) (raw : Option String)
    (hcond : ¬(st.chat_to_job c = Option.none ∨
        st.chat_to_setting c = Option.none))
    (hs : st.chat_to_setting c = some j) :
    repeatDelayOp env st c raw =
      { st := { st with
                  chat_to_setting :=
                    setEntry st.chat_to_setting c
                      (some { j with repeat_delay := parsedDelay env raw }) },
        eff := [], err := Option.none } := by
  unfold repeatDelayOp
  rw [if_neg hcond, hs]
  rfl

/-- A Configure command for tenant 5 with a malformed names payload, applied to
the empty registry: the registry stays empty but tenant 5 is still sent the
error notification — refuting claim C6's "produces no outbound message to the
tenant" for inactive tenants. -/
theorem c6_counterexample :
    (repeatDelayOp envW (namesOp envW emptyState 5 "not-json").st 5
        Option.none).st = emptyState ∧
    (namesOp envW emptyState 5 "not-json").eff =
      [Effect.sendMessage 5 "При пасинге имен произолша ошибка",
       Effect.logWarn] :=
  ⟨rfl, rfl⟩

/-- Claim C6, amended: a Configure command (`_names` then `_repeat_delay`) on a
tenant with no active job never mutates the registry and never creates a job,
and emits nothing when the names payload parses as a JSON array — but when the
payload is malformed or a non-array, the error notification is still sent to
the inactive tenant. -/
theorem c6_amended_configure_inactive (env : Env) (st : SenderState)
    (c : ChatID) (rawN : String) (rawD : Option String)
    (h : st.chat_to_job c = Option.none ∨ st.chat_to_setting c = Option.none) :
    (repeatDelayOp env (namesOp env st c rawN).st c rawD).st = st ∧
    (namesOp env st c rawN).eff ++
        (repeatDelayOp env (namesOp env st c rawN).st c rawD).eff =
      (match env.json_loads rawN with
       | some (PyJson.list _) => []
       | _ => [Effect.sendMessage c "При пасинге имен произолша ошибка",
               Effect.logWarn]) := by
  have hd : repeatDelayOp env st c rawD =
      { st := st, eff := [], err := Option.none } := by
    unfold repeatDelayOp
    rw [if_pos h]
  have hn : namesOp env st c rawN =
      { st := st,
        eff := (match env.json_loads rawN with
          | some (PyJson.list _) => []
          | _ => [Effect.sendMessage c "При пасинге имен произолша ошибка",
                  Effect.logWarn]),
        err := Option.none } := by
    cases hp : env.json_loads rawN with
    | none => simp only [namesOp, hp]
    | some v =>
        cases v with
        | nonList => simp only [namesOp, hp]
        | list xs =>
            simp only [namesOp, hp]
            rw [if_pos h]
  rw [hn]
  constructor
  · show (repeatDelayOp env st c rawD).st = st
    rw [hd]
  · show (match env.json_loads rawN with
        | some (PyJson.list _) => []
        | _ => [Effect.sendMessage c "При пасинге имен произолша ошибка",
                Effect.logWarn]) ++
        (repeatDelayOp env st c rawD).eff = _
    rw [hd]
    exact List.append_nil _

/-- Witness for C6's amended theorem: Configure on inactive tenant 7 of the
empty registry with an unparseable names payload leaves the registry empty and
sends exactly the error notification. -/
theorem c6_amended_witness :
    (repeatDelayOp envW (namesOp envW emptyState 7 "oops").st 7
        (some "2h")).st = emptyState ∧
    (namesOp envW emptyState 7 "oops").eff ++
        (repeatDelayOp envW (namesOp envW emptyState 7 "oops").st 7
          (some "2h")).eff =
      [Effect.sendMessage 7 "При пасинге имен произолша ошибка",
       Effect.logWarn] :=
  c6_amended_configure_inactive envW emptyState 7 "oops" (some "2h")
    (Or.inl rfl)

/-- Concrete environment whose delay parser resolves exactly `"15m"` and
`"2h"`, like `pytimeparse.parse` does. -/
def envW7 : Env :=
  { json_loads := fun _ => Option.none,
    time_parse := fun s =>
      if s = "15m" then some 900
      else if s = "2h" then some 7200
      else Option.none,
    parse := fun n => ("img:" ++ n, "txt:" ++ n) }

/-- Claim C7: for a tenant present in both maps, `_repeat_delay` with an empty
raw value falls back to `STANDARD_REPLAY_DELAY = "15m"` and stores its parse
(900 time-units), and with `"2h"` stores 7200 time-units; nothing else in the
settings entry or the registry changes. -/
theorem c7_repeat_delay_defaults (env : Env) (st : SenderState) (c : ChatID)
    (j : SenderJob)
    (h900 : env.time_parse "15m" = some 900)
    (h7200 : env.time_parse "2h" = some 7200)
    (hj : st.chat_to_job c ≠ Option.none)
    (hs : st.chat_to_setting c = some j) :
    repeatDelayOp env st c (some "") =
      { st := { st with
                  chat_to_setting :=
                    setEntry st.chat_to_setting c
                      (some { j with repeat_delay := some 900 }) },
        eff := [], err := Option.none } ∧
    repeatDelayOp env st c (some "2h") =
      { st := { st with
                  chat_to_setting :=
                    setEntry st.chat_to_setting c
                      (some { j with repeat_delay := some 7200 }) },
        eff := [], err := Option.none } := by
  have hcond : ¬(st.chat_to_job c = Option.none ∨
      st.chat_to_setting c = Option.none) := by
    rintro (h' | h')
    · exact hj h'
    · rw [hs] at h'
      exact Option.noConfusion h'
  constructor
  · rw [repeatDelayOp_active env st c j (some "") hcond hs,
        show parsedDelay env (some "") = env.time_parse "15m" from rfl, h900]
  · rw [repeatDelayOp_active env st c j (some "2h") hcond hs,
        show parsedDelay env (some "2h") = env.time_parse "2h" from rfl, h7200]

/-- Witness for C7 on the concrete one-tenant registry and the concrete delay
parser: `""` stores 900, `"2h"` stores 7200. -/
theorem c7_repeat_delay_witness :
    repeatDelayOp envW7 stW1 3 (some "") =
      { st := { stW1 with
                  chat_to_setting :=
                    setEntry stW1.chat_to_setting 3
                      (some { jW with repeat_delay := some 900 }) },
        eff := [], err := Option.none } ∧
    repeatDelayOp envW7 stW1 3 (some "2h") =
      { st := { stW1 with
                  chat_to_setting :=
                    setEntry stW1.chat_to_setting 3
                      (some { jW with repeat_delay := some 7200 }) },
        eff := [], err := Option.none } :=
  c7_repeat_delay_defaults envW7 stW1 3 jW rfl rfl
    (fun h => Option.noConfusion h) rfl

/-- Claim C8 as stated is false on empty names: `_send` substitutes the
placeholder only when the name is Python `None`; a generation command whose
first name is the empty string dispatches with the empty string, not with the
placeholder `"Безымянная"` that a `None` name produces. -/
theorem c8_counterexample :
    generateDispatch envW
        { chat_id := 2, command := CommandsForGenerate.BOTH,
          first_name := some "" } =
      [Effect.sendPhoto 2 "img:", Effect.sendMessage 2 "txt:"] ∧
    generateDispatch envW
        { chat_id := 2, command := CommandsForGenerate.BOTH,
          first_name := Option.none } =
      [Effect.sendPhoto 2 "img:Безымянная",
       Effect.sendMessage 2 "txt:Безымянная"] :=
  ⟨rfl, rfl⟩

/-- Claim C8, amended: `_generate` dispatches image-only for kind Picture,
text-only for kind Text, and both image and text for any other kind; the
placeholder name is used only when the command's name is absent (`None`) —
an empty-string name is passed to the content provider unchanged. -/
theorem c8_amended_dispatch_modes (env : Env) (chat : ChatID)
    (name : Option String) (s : String) :
    generateDispatch env
        { chat_id := chat, command := CommandsForGenerate.PICTURE,
          first_name := name } =
      [Effect.sendPhoto chat (env.parse (pyNameDefault name)).1] ∧
    generateDispatch env
        { chat_id := chat, command := CommandsForGenerate.TEXT,
          first_name := name } =
      [Effect.sendMessage chat (env.parse (pyNameDefault name)).2] ∧
    generateDispatch env
        { chat_id := chat, command := CommandsForGenerate.BOTH,
          first_name := name } =
      [Effect.sendPhoto chat (env.parse (pyNameDefault name)).1,
       Effect.sendMessage chat (env.parse (pyNameDefault name)).2] ∧
    pyNameDefault Option.none = "Безымянная" ∧
    pyNameDefault (some s) = s :=
  ⟨rfl, rfl, rfl, rfl, rfl⟩

/-- `_polling` either leaves the polling queue alone (it was empty) or consumes
exactly its head. -/
theorem pollingOp_queue (env : Env) (st : SenderState) (pq : List PollingInfo) :
    (pollingOp env st pq).2.1 = pq ∨
    ∃ info rest, pq = info :: rest ∧ (pollingOp env st pq).2.1 = rest := by
  cases pq with
  | nil => exact Or.inl rfl
  | cons info rest =>
      refine Or.inr ⟨info, rest, rfl, ?_⟩
      cases hc : info.command <;> simp only [pollingOp, hc]

/-- `_generate` either leaves the generation queue alone (it was empty) or
consumes exactly its head. -/
theorem generateOp_queue (env : Env) (gq : List GenerateInfo) :
    (generateOp env gq).1 = gq ∨
    ∃ info rest, gq = info :: rest ∧ (generateOp env gq).1 = rest := by
  cases gq with
  | nil => exact Or.inl rfl
  | cons info rest => exact Or.inr ⟨info, rest, rfl, rfl⟩

/-- When `_polling` raises, the cycle body stops there: the exception
propagates, the generation queue is untouched, and only the polling effects
were emitted. -/
theorem callbackBody_err (env : Env) (st : SenderState) (pq : List PollingInfo)
    (gq : List GenerateInfo) (e : PyErr)
    (hp : (pollingOp env st pq).2.2.2 = some e) :
    callbackBody env st pq gq =
      { st := (pollingOp env st pq).1, pq := (pollingOp env st pq).2.1,
        gq := gq, eff := (pollingOp env st pq).2.2.1, err := some e } := by
  simp only [callbackBody, hp]

/-- When `_polling` returns normally, the cycle body goes on to `_generate`. -/
theorem callbackBody_ok (env : Env) (st : SenderState) (pq : List PollingInfo)
    (gq : List GenerateInfo)
    (hp : (pollingOp env st pq).2.2.2 = Option.none) :
    callbackBody env st pq gq =
      { st := (pollingOp env st pq).1, pq := (pollingOp env st pq).2.1,
        gq := (generateOp env gq).1,
        eff := (pollingOp env st pq).2.2.1 ++ (generateOp env gq).2,
        err := Option.none } := by
  simp only [callbackBody, hp]

/-- A Start command for fresh tenant 9 in the polling queue and one waiting
generation command: the cycle's polling step raises `NameError`, and the
generation command is NOT processed that cycle — its queue entry survives and
no generation effects are emitted — refuting claim C9's "the generation step
runs in that cycle even if the polling step raises". -/
theorem c9_counterexample :
    (callbackBody envW emptyState
        [{ chat_id := 9, command := CommandsForPolling.START, names := "",
           delay := Option.none }]
        [{ chat_id := 9, command := CommandsForGenerate.BOTH,
           first_name := some "N" }]).err = some PyErr.nameError ∧
    (callbackBody envW emptyState
        [{ chat_id := 9, command := CommandsForPolling.START, names := "",
           delay := Option.none }]
        [{ chat_id := 9, command := CommandsForGenerate.BOTH,
           first_name := some "N" }]).gq =
      [{ chat_id := 9, command := CommandsForGenerate.BOTH,
         first_name := some "N" }] ∧
    (callbackBody envW emptyState
        [{ chat_id := 9, command := CommandsForPolling.START, names := "",
           delay := Option.none }]
        [{ chat_id := 9, command := CommandsForGenerate.BOTH,
           first_name := some "N" }]).eff = [Effect.spawnTask 9] :=
  ⟨rfl, rfl, rfl⟩

/-- Claim C9, amended: each cycle body takes at most one command from each
queue and runs the polling step first, its effects preceding all generation
effects — but when the polling step raises, the generation step is skipped for
that cycle (the error is caught only by the `run_forever` wrapper around the
whole body), leaving the generation queue untouched. -/
theorem c9_amended_cycle (env : Env) (st : SenderState) (pq : List PollingInfo)
    (gq : List GenerateInfo) :
    pq.length ≤ (callbackBody env st pq gq).pq.length + 1 ∧
    (callbackBody env st pq gq).pq.length ≤ pq.length ∧
    gq.length ≤ (callbackBody env st pq gq).gq.length + 1 ∧
    (callbackBody env st pq gq).gq.length ≤ gq.length ∧
    (callbackBody env st pq gq).eff =
      (pollingOp env st pq).2.2.1 ++
        (match (pollingOp env st pq).2.2.2 with
         | some _ => []
         | Option.none => (generateOp env gq).2) ∧
    ((pollingOp env st pq).2.2.2 ≠ Option.none →
      (callbackBody env st pq gq).gq = gq) := by
  have hpl : (pollingOp env st pq).2.1.length + 1 = pq.length ∨
      (pollingOp env st pq).2.1.length = pq.length := by
    rcases pollingOp_queue env st pq with h | ⟨i, r, h1, h2⟩
    · exact Or.inr (by rw [h])
    · exact Or.inl (by rw [h2, h1]; rfl)
  have hgl : (generateOp env gq).1.length + 1 = gq.length ∨
      (generateOp env gq).1.length = gq.length := by
    rcases generateOp_queue env gq with h | ⟨i, r, h1, h2⟩
    · exact Or.inr (by rw [h])
    · exact Or.inl (by rw [h2, h1]; rfl)
  cases hp : (pollingOp env st pq).2.2.2 with
  | some e =>
      rw [callbackBody_err env st pq gq e hp]
      refine ⟨?_, ?_, ?_, ?_, ?_, ?_⟩
      · show pq.length ≤ (pollingOp env st pq).2.1.length + 1
        omega
      · show (pollingOp env st pq).2.1.length ≤ pq.length
        omega
      · show gq.length ≤ gq.length + 1
        omega
      · show gq.length ≤ gq.length
        omega
      · show (pollingOp env st pq).2.2.1 =
          (pollingOp env st pq).2.2.1 ++ []
        rw [List.append_nil]
      · intro _
        rfl
  | none =>
      rw [callbackBody_ok env st pq gq hp]
      refine ⟨?_, ?_, ?_, ?_, ?_, ?_⟩
      · show pq.length ≤ (pollingOp env st pq).2.1.length + 1
        omega
      · show (pollingOp env st pq).2.1.length ≤ pq.length
        omega
      · show gq.length ≤ (generateOp env gq).1.length + 1
        omega
      · show (generateOp env gq).1.length ≤ gq.length
        omega
      · rfl
      · intro hne
        exact absurd rfl hne

/-- Witness for C9's amended theorem, at the counterexample input: the cycle
whose polling step raised leaves the waiting generation command in its queue. -/
theorem c9_amended_witness :
    (callbackBody envW emptyState
        [{ chat_id := 9, command := CommandsForPolling.START, names := "",
           delay := Option.none }]
        [{ chat_id := 9, command := CommandsForGenerate.BOTH,
           first_name := some "N" }]).gq =
      [{ chat_id := 9, command := CommandsForGenerate.BOTH,
         first_name := some "N" }] :=
  (c9_amended_cycle envW emptyState
      [{ chat_id := 9, command := CommandsForPolling.START, names := "",
         delay := Option.none }]
      [{ chat_id := 9, command := CommandsForGenerate.BOTH,
         first_name := some "N" }]).2.2.2.2.2
    (fun h => Option.noConfusion h)

/-- The effects of one wake of a running task whose tenant has a settings
entry: the dispatch (if the iterator yields a name) followed by the sleep for
the freshly read `repeat_delay`. -/
theorem senderWake_running_eff (env : Env) (st : SenderState) (c : ChatID)
    (i : Option (List String)) (j : SenderJob)
    (ht : st.task c = TaskState.running i)
    (hs : st.chat_to_setting c = some j) :
    (senderWake env st c).2 =
      (match (iterAdvance j.names i).2 with
       | Option.none => []
       | some n => Effect.logErr n :: send env c (some n)) ++
      [Effect.sleep j.repeat_delay] := by
  unfold senderWake
  rw [ht, hs]

/-- Claim C10: for an active tenant, `_repeat_delay` with a non-empty raw value
that the delay parser cannot interpret stores `None` as the tenant's
`repeat_delay`, emits no notification and no log line, and the next wake of the
tenant's runner passes that `None` straight to its sleep. -/
theorem c10_unparseable_delay (env : Env) (st : SenderState) (c : ChatID)
    (j : SenderJob) (i : Option (List String)) (s : String)
    (hj : st.chat_to_job c ≠ Option.none)
    (hs : st.chat_to_setting c = some j)
    (hne : s ≠ "")
    (hp : env.time_parse s = Option.none)
    (ht : st.task c = TaskState.running i) :
    (repeatDelayOp env st c (some s)).st.chat_to_setting c =
      some { j with repeat_delay := Option.none } ∧
    (repeatDelayOp env st c (some s)).eff = [] ∧
    Effect.sleep Option.none ∈
      (senderWake env (repeatDelayOp env st c (some s)).st c).2 := by
  have hcond : ¬(st.chat_to_job c = Option.none ∨
      st.chat_to_setting c = Option.none) := by
    rintro (h' | h')
    · exact hj h'
    · rw [hs] at h'
      exact Option.noConfusion h'
  have hraw : parsedDelay env (some s) = Option.none := by
    simp only [parsedDelay, pyOrDefault]
    rw [if_neg hne]
    exact hp
  have hop := repeatDelayOp_active env st c j (some s) hcond hs
  rw [hraw] at hop
  have h1 : (repeatDelayOp env st c (some s)).st.chat_to_setting c =
      some { j with repeat_delay := Option.none } := by
    rw [hop]
    exact setEntry_same _ _ _
  have h2 : (repeatDelayOp env st c (some s)).eff = [] := by
    rw [hop]
  have ht' : (repeatDelayOp env st c (some s)).st.task c =
      TaskState.running i := by
    rw [hop]
    exact ht
  refine ⟨h1, h2, ?_⟩
  rw [senderWake_running_eff env _ c i { j with repeat_delay := Option.none }
      ht' h1]
  simp

/-- Witness for C10: on the concrete one-tenant registry, the unparseable raw
delay "soon" stores `None` for tenant 4 with no effects, and the next wake
sleeps with `None`. -/
theorem c10_unparseable_delay_witness :
    (repeatDelayOp envW stW1 4 (some "soon")).st.chat_to_setting 4 =
      some { jW with repeat_delay := Option.none } ∧
    (repeatDelayOp envW stW1 4 (some "soon")).eff = [] ∧
    Effect.sleep Option.none ∈
      (senderWake envW (repeatDelayOp envW stW1 4 (some "soon")).st 4).2 :=
  c10_unparseable_delay envW stW1 4 jW Option.none "soon"
    (fun h => Option.noConfusion h) rfl (by decide) rfl rfl

end Sender
